import Mathlib

/-!
# Verification of the itadakimasu-api core against its specification

Shallow embedding of the repository's core components:

* `src/cache_storage.py` — the dual-tier TTL cache (`CacheStorage`);
* `src/utils.py` — `download_youtube_video`, `convert_mp4_to_mp3`, and the
  response-handling part of `search_track_metadata_options`;
* `src/main.py` — the `download_video_as_mp3` acquisition pipeline.

Python strings manipulated character-wise (file paths fed to `str.split`)
are embedded as `List Char`; other strings as Lean `String`.  Timestamps are
embedded as integer UTC seconds (`Int`).  Cached values are a type parameter
`V` standing for any JSON-compatible payload.  Exceptions are embedded with
`Except`: a Python function that may raise returns `Except E α`.
-/

namespace Itadakimasu

/-- Python runtime errors that the cache code can raise and does not catch.
`typeError` covers `TypeError`/`IndexError`-style failures from subscripting
or comparing a non-pair cache entry; `attributeError` covers calling `.get`
on a parsed JSON value that is not an object; `indexError` covers indexing
an empty list. -/
inductive PyError where
  | typeError
  | attributeError
  | indexError
deriving DecidableEq, Repr

/-! ## Cache storage (`src/cache_storage.py`)

`CacheItem = tuple[Any, int]`: a value together with its absolute expiration
timestamp (UTC seconds). -/

/-- `CacheItem = tuple[Any, int]` — the value and its expiration timestamp. -/
abbrev CacheItem (V : Type) := V × Int

/-- A raw entry as it can appear in the durable JSON file under some key.
`set_item` always writes `[value, expires_at]` pairs (`pair`), but the file
can contain arbitrary JSON: `null` becomes Python `None`, and any other
shape that is not subscriptable as a `[value, expires_at]` pair is
`malformed`. -/
inductive RawEntry (V : Type) where
  | pair (value : V) (expiresAt : Int)
  | null
  | malformed
deriving DecidableEq, Repr

/-- The durable cache file's state: absent on disk (`open` raises
`FileNotFoundError`), present but not valid JSON (`json.load` raises
`JSONDecodeError`), valid JSON but not an object, or a JSON object mapping
keys to raw entries. -/
inductive DurableFile (V : Type) where
  | absent
  | unparseable
  | nonObject
  | obj (entries : List (String × RawEntry V))
deriving DecidableEq, Repr

/-- The state of one `CacheStorage` instance: `self.mem_cache` (the volatile
tier, always holding proper `(value, expires_at)` tuples because only
`set_item` writes it) and the durable file at `self.cache_path`. -/
structure CacheState (V : Type) where
  memCache : List (String × CacheItem V)
  file : DurableFile V
deriving DecidableEq, Repr

/-- Python `dict.get(key)` on an association list (a `dict` embedded with
its insertion order): the value bound to `key`, if any. -/
def dictGet {α : Type} (l : List (String × α)) (key : String) : Option α :=
  match l with
  | [] => none
  | (k, v) :: rest => if k = key then some v else dictGet rest key

/-- Python `dict` assignment `d[key] = x` on an association list: replace the
existing binding in place, or append a new one. -/
def dictSet {α : Type} (l : List (String × α)) (key : String) (x : α) :
    List (String × α) :=
  if ∃ p ∈ l, p.1 = key then
    l.map (fun p => if p.1 = key then (key, x) else p)
  else
    l ++ [(key, x)]

/-- `CacheStorage._has_expired`: `datetime.now(timezone.utc).timestamp() > item[1]`. -/
def hasExpired (now : Int) (item : CacheItem V) : Bool :=
  now > item.2

/-- `CacheStorage._create_item`: the value paired with
`int((now + item_lifetime).timestamp())`. -/
def createItem (now lifetime : Int) (value : V) : CacheItem V :=
  (value, now + lifetime)

/-- What `get_item` hands back to the caller.  The volatile-tier hit path
(`return item`, line 29) returns the whole `(value, expires_at)` tuple,
embedded as `wrapped`; the durable path (`return item[0]`, line 46) returns
the bare value, embedded as `value`; `None` is `absent`. -/
inductive GetResult (V : Type) where
  | absent
  | value (v : V)
  | wrapped (v : V) (expiresAt : Int)
deriving DecidableEq, Repr

/-- The durable-tier fallback of `CacheStorage.get_item` (lines 31–46):
load the JSON file (`FileNotFoundError` and `JSONDecodeError` are caught
and degrade to `item = None`), take `cache.get(key)`, return `None` when
absent, `None` when expired, else `item[0]`.  Subscripting a malformed
entry in `_has_expired` raises. -/
def getItemDurable (now : Int) (file : DurableFile V) (key : String) :
    Except PyError (GetResult V) :=
  match file with
  | .absent => .ok .absent
  | .unparseable => .ok .absent
  | .nonObject => .error .attributeError
  | .obj entries =>
    match dictGet entries key with
    | none => .ok .absent
    | some .null => .ok .absent
    | some .malformed => .error .typeError
    | some (.pair v e) => if hasExpired now (v, e) then .ok .absent else .ok (.value v)

/-- `CacheStorage.get_item` (lines 24–46): consult the volatile tier first —
an unexpired hit returns the raw `item` tuple (line 29) — otherwise fall
back to the durable file. -/
def getItem (now : Int) (st : CacheState V) (key : String) :
    Except PyError (GetResult V) :=
  match dictGet st.memCache key with
  | some item =>
    if hasExpired now item then getItemDurable now st.file key
    else .ok (.wrapped item.1 item.2)
  | none => getItemDurable now st.file key

/-- `CacheStorage.set_item` (lines 48–66): read-modify-write of the whole
durable file; a missing or unparseable file is recreated containing only
this one key; finally `self.mem_cache[key] = item`.  When the file parses
to a non-object JSON value, `cache[key] = item` raises uncaught, before the
volatile tier is touched. -/
def setItem (now lifetime : Int) (st : CacheState V) (key : String) (value : V) :
    Except PyError (CacheState V) :=
  let item := createItem now lifetime value
  match st.file with
  | .obj entries =>
    .ok { memCache := dictSet st.memCache key item,
          file := .obj (dictSet entries key (.pair item.1 item.2)) }
  | .nonObject => .error .typeError
  | .absent =>
    .ok { memCache := dictSet st.memCache key item,
          file := .obj [(key, .pair item.1 item.2)] }
  | .unparseable =>
    .ok { memCache := dictSet st.memCache key item,
          file := .obj [(key, .pair item.1 item.2)] }

/-! ### Association-list lemmas for `dictSet` -/

theorem dictGet_map_replace {α : Type} (l : List (String × α)) (key : String) (x : α) :
    dictGet (l.map (fun p => if p.1 = key then (key, x) else p)) key =
      if ∃ p ∈ l, p.1 = key then some x else dictGet l key := by
  induction l with
  | nil => simp [dictGet]
  | cons p l ih =>
    obtain ⟨a, b⟩ := p
    rw [List.map_cons]
    by_cases h : a = key
    · subst h
      rw [if_pos rfl]
      simp [dictGet]
    · rw [if_neg h]
      have hc : (∃ p ∈ (a, b) :: l, p.1 = key) ↔ (∃ p ∈ l, p.1 = key) := by
        simp [h]
      simp only [hc]
      simp [dictGet, h, ih]

theorem dictGet_append_single {α : Type} (l : List (String × α)) (key : String) (x : α)
    (h : ¬ ∃ p ∈ l, p.1 = key) :
    dictGet (l ++ [(key, x)]) key = some x := by
  induction l with
  | nil => simp [dictGet]
  | cons p l ih =>
    obtain ⟨a, b⟩ := p
    have h1 : a ≠ key := fun he => h ⟨(a, b), List.mem_cons_self _ _, he⟩
    have h2 : ¬ ∃ p ∈ l, p.1 = key :=
      fun ⟨p, hp, he⟩ => h ⟨p, List.mem_cons_of_mem _ hp, he⟩
    simp [dictGet, h1, ih h2]

/-- After `d[key] = x`, looking up `key` yields `x`. -/
theorem dictGet_dictSet {α : Type} (l : List (String × α)) (key : String) (x : α) :
    dictGet (dictSet l key x) key = some x := by
  unfold dictSet
  by_cases h : ∃ p ∈ l, p.1 = key
  · rw [if_pos h, dictGet_map_replace, if_pos h]
  · rw [if_neg h, dictGet_append_single l key x h]

/-! ## Claims about the cache (C1, C2, C4, C5) -/

/-- C1: the claim says `set_item(k, v)` immediately followed by `get_item(k)`
in the same process returns `v` itself, not a wrapper.  The code violates
this: the volatile-tier hit path (`return item`, cache_storage.py line 29)
returns the whole `(value, expires_at)` tuple instead of `item[0]` as the
durable path does.  Evaluated at the failing input `set_item("k", 7)` with
lifetime 10 at time 0, then `get_item("k")` at time 0: the result is the
wrapped tuple `(7, 10)`, which is not the stored value `7`. -/
theorem C1_get_after_set_returns_wrapped_tuple :
    setItem (V := Int) 0 10 ⟨[], .absent⟩ "k" 7 =
      .ok ⟨[("k", (7, 10))], .obj [("k", .pair 7 10)]⟩ ∧
    getItem (V := Int) 0 ⟨[("k", (7, 10))], .obj [("k", .pair 7 10)]⟩ "k" =
      .ok (.wrapped 7 10) ∧
    GetResult.wrapped (7 : Int) 10 ≠ GetResult.value 7 := by
  refine ⟨rfl, rfl, by decide⟩

/-- C2 counterexample: the claim says `get_item` never raises for any
JSON-object content of the durable file, including an entry that is not a
`[value, expires_at]` pair.  False: with the file containing
`{"k": <non-pair>}`, `_has_expired` subscripts the entry (`item[1]`,
cache_storage.py line 18) and raises an uncaught `TypeError`. -/
theorem C2_get_raises_on_malformed_entry :
    getItem (V := Int) 0 ⟨[], .obj [("k", .malformed)]⟩ "k" =
      .error .typeError := rfl

/-- C2 (amended): for a durable file that is absent or unparseable,
`get_item` returns a result (absent at worst) and never raises, and a
subsequent `set_item(k, v)` succeeds and leaves the durable file containing
exactly the single key `k`. -/
theorem C2_amended_corruption_resilience (V : Type) (now lifetime : Int)
    (mem : List (String × CacheItem V)) (file : DurableFile V)
    (key k : String) (v : V)
    (hfile : file = .absent ∨ file = .unparseable) :
    (∃ r, getItem now ⟨mem, file⟩ key = .ok r) ∧
    (∃ st' : CacheState V, setItem now lifetime ⟨mem, file⟩ k v = .ok st' ∧
      st'.file = .obj [(k, .pair v (now + lifetime))]) := by
  constructor
  · rcases hm : dictGet mem key with _ | item
    · rcases hfile with h | h <;>
        exact ⟨.absent, by simp [getItem, hm, h, getItemDurable]⟩
    · by_cases he : hasExpired now item = true
      · rcases hfile with h | h <;>
          exact ⟨.absent, by simp [getItem, hm, h, he, getItemDurable]⟩
      · exact ⟨.wrapped item.1 item.2, by simp [getItem, hm, he]⟩
  · rcases hfile with h | h <;> subst h <;> exact ⟨_, rfl, rfl⟩

/-- Witness for C2 (amended) at a concrete input: empty volatile tier,
absent durable file, key `"k"`, value `5`, time `0`, lifetime `10`. -/
theorem C2_amended_corruption_resilience_witness :
    (∃ r, getItem (V := Int) 0 ⟨[], .absent⟩ "k" = .ok r) ∧
    (∃ st' : CacheState Int, setItem 0 10 ⟨[], .absent⟩ "k" 5 = .ok st' ∧
      st'.file = .obj [("k", .pair 5 10)]) :=
  C2_amended_corruption_resilience Int 0 10 [] .absent "k" "k" 5 (Or.inl rfl)

/-- C4: an entry is valid exactly when `now ≤ expires_at` (expired only
under strict greater-than, cache_storage.py line 18); and once
`item_lifetime` has elapsed since the last `set_item(key, _)` — that is,
`setTime + lifetime < now` — `get_item(key)` returns absent from both
tiers, even though the durable file still contains the stale entry. -/
theorem C4_boundary_validity_and_stale_absent (V : Type)
    (now setTime lifetime : Int) (st st' : CacheState V) (key : String) (v : V)
    (hset : setItem setTime lifetime st key v = .ok st')
    (hlate : setTime + lifetime < now) :
    (∀ item : CacheItem V, (hasExpired now item = false ↔ now ≤ item.2)) ∧
    getItem now st' key = .ok .absent := by
  constructor
  · intro item
    simp [hasExpired, not_lt]
  · obtain ⟨mem, file⟩ := st
    cases file with
    | nonObject => simp [setItem] at hset
    | absent =>
      simp only [setItem, createItem, Except.ok.injEq] at hset
      subst hset
      simp [getItem, dictGet_dictSet, hasExpired, hlate, getItemDurable, dictGet]
    | unparseable =>
      simp only [setItem, createItem, Except.ok.injEq] at hset
      subst hset
      simp [getItem, dictGet_dictSet, hasExpired, hlate, getItemDurable, dictGet]
    | obj entries =>
      simp only [setItem, createItem, Except.ok.injEq] at hset
      subst hset
      simp [getItem, dictGet_dictSet, hasExpired, hlate, getItemDurable, dictGet]

/-- Witness for C4 at a concrete input: `set_item("k", 5)` at time `0` with
lifetime `10`, then `get_item("k")` at time `11`. -/
theorem C4_boundary_validity_and_stale_absent_witness :
    (∀ item : CacheItem Int, (hasExpired 11 item = false ↔ 11 ≤ item.2)) ∧
    getItem 11 ⟨[("k", ((5 : Int), 10))], .obj [("k", .pair 5 10)]⟩ "k" =
      .ok .absent :=
  C4_boundary_validity_and_stale_absent Int 11 0 10 ⟨[], .absent⟩
    ⟨[("k", (5, 10))], .obj [("k", .pair 5 10)]⟩ "k" 5 rfl (by decide)

/-- C5: in a fresh process (empty volatile tier), if the durable file
contains an unexpired entry `key → [v, expiresAt]`, then `get_item(key)`
returns `v` without any intervening `set_item`. -/
theorem C5_durable_fallback_returns_value (V : Type) (now expiresAt : Int)
    (entries : List (String × RawEntry V)) (key : String) (v : V)
    (hlook : dictGet entries key = some (.pair v expiresAt))
    (hvalid : now ≤ expiresAt) :
    getItem now ⟨[], .obj entries⟩ key = .ok (.value v) := by
  simp [getItem, dictGet, getItemDurable, hlook, hasExpired, not_lt.mpr hvalid]

/-- Witness for C5 at a concrete input, read exactly at the expiration
boundary (`now = expiresAt = 10`), where the entry is still valid. -/
theorem C5_durable_fallback_returns_value_witness :
    getItem 10 ⟨[], .obj [("k", .pair (5 : Int) 10)]⟩ "k" = .ok (.value 5) :=
  C5_durable_fallback_returns_value Int 10 10 [("k", .pair 5 10)] "k" 5 rfl
    (by decide)

/-! ## Media pipeline (`src/utils.py`, `src/main.py`)

File paths and subprocess argument vectors are embedded as `List Char`,
because `convert_mp4_to_mp3` builds its command line with Python string
formatting and `str.split(' ')`. -/

/-- A Python string viewed character-wise. -/
abbrev PyStr := List Char

/-- Python `s.split(' ')`: split on every single space, keeping empty
pieces (so `''.split(' ') == ['']`). -/
def splitOnSpace : PyStr → List PyStr
  | [] => [[]]
  | c :: rest =>
    if c = ' ' then [] :: splitOnSpace rest
    else
      match splitOnSpace rest with
      | [] => [[c]]
      | w :: ws => (c :: w) :: ws

/-- Python `s.endswith(suffix)`. -/
def pyEndsWith (suffix s : PyStr) : Bool :=
  suffix.isSuffixOf s

/-- The argument vector handed to `subprocess.run` by `convert_mp4_to_mp3`
(utils.py line 226): the Python f-string
`f'{FFMPEG_PATH} -i {mp4_filepath} -ab 320k -y {mp3_filepath}'`
followed by `.split(' ')`. -/
def convertCmd (ffmpegPath mp4Filepath mp3Filepath : PyStr) : List PyStr :=
  splitOnSpace
    (ffmpegPath ++ [' ', '-', 'i', ' '] ++ mp4Filepath ++
      [' ', '-', 'a', 'b', ' ', '3', '2', '0', 'k', ' ', '-', 'y', ' '] ++
      mp3Filepath)

/-- Failures of `convert_mp4_to_mp3`: the `IOError` precondition checks on
the two paths, and the bare `Exception('Could not convert mp4 to mp3.')`
raised on a non-zero exit status (the spec's `TranscodeFailed`). -/
inductive ConvertError where
  | ioError
  | transcodeFailed
deriving DecidableEq, Repr

/-- `convert_mp4_to_mp3` (utils.py lines 218–234).  `run` is the
`subprocess.run` collaborator, giving the tool's exit status for an
argument vector; the `.mp4`/`.mp3` extension and `os.path.isfile` checks
guard the call; the subprocess is invoked exactly once — a non-zero exit
status raises with no retry. -/
def convert_mp4_to_mp3 (run : List PyStr → Int) (ffmpegPath : PyStr)
    (mp4IsFile mp3IsFile : Bool) (mp4Filepath mp3Filepath : PyStr) :
    Except ConvertError Unit :=
  if ¬ (pyEndsWith ['.', 'm', 'p', '4'] mp4Filepath ∧ mp4IsFile) then
    .error .ioError
  else if ¬ (pyEndsWith ['.', 'm', 'p', '3'] mp3Filepath ∧ mp3IsFile) then
    .error .ioError
  else if run (convertCmd ffmpegPath mp4Filepath mp3Filepath) ≠ 0 then
    .error .transcodeFailed
  else
    .ok ()

/-- Outcome of resolving a video id against the hosting service
(utils.py lines 200–203): resolution raises `VideoUnavailable`, or the
stream query returns no audio-only stream, or it returns a stream
(abstracted by an identifier). -/
inductive ResolveOutcome where
  | unavailable
  | noStream
  | stream (streamId : Int)
deriving DecidableEq, Repr

/-- Failures of `download_youtube_video`: the `IOError` precondition check,
the `HTTPException(404, detail)` raised for an unavailable video (the
spec's `NotFound`), and a failure of `audio_stream.download` itself after
its bounded internal retries. -/
inductive DownloadError where
  | ioError
  | httpNotFound (detail : String)
  | downloadFailed
deriving DecidableEq, Repr

/-- `download_youtube_video` (utils.py lines 195–215): require `filepath`
to name an existing file; when resolution raises `VideoUnavailable` or no
audio-only stream exists, raise `HTTPException(404, f'No video found with
ID {video_id}')`; otherwise download the stream into the file. -/
def download_youtube_video (resolve : ResolveOutcome) (downloadRaises : Bool)
    (isFile : Bool) (videoId : String) : Except DownloadError Unit :=
  if ¬ isFile then .error .ioError
  else
    match resolve with
    | .unavailable => .error (.httpNotFound ("No video found with ID " ++ videoId))
    | .noStream => .error (.httpNotFound ("No video found with ID " ++ videoId))
    | .stream _ => if downloadRaises then .error .downloadFailed else .ok ()

/-! ### Tagging and the acquisition orchestration (`src/main.py`) -/

/-- The `TrackMetadata` model of utils.py lines 44–48: the caller-supplied
metadata for one acquisition. -/
structure TrackMetadata where
  title : String
  artist : String
  album : String
  albumCoverUrl : String
deriving DecidableEq, Repr

/-- Image payload bytes (`response.read()`), abstracted. -/
abbrev Bytes := List Nat

/-- `eyed3.id3.frames.ImageFrame.FRONT_COVER`. -/
def FRONT_COVER : Nat := 3

/-- The image frame attached by `tag.images.set` (main.py lines 196–201). -/
structure CoverImageFrame where
  imgData : Bytes
  pictureType : Nat
  mimeType : String
  description : String
deriving DecidableEq, Repr

/-- The lyrics frame attached by `tag.lyrics.set` (main.py line 204). -/
structure LyricsFrame where
  text : String
  description : String
  lang : String
deriving DecidableEq, Repr

/-- The eyeD3 `Tag` object as observed after the tagging step. -/
structure Mp3Tag where
  title : Option String := none
  artist : Option String := none
  album : Option String := none
  image : Option CoverImageFrame := none
  lyrics : Option LyricsFrame := none
deriving DecidableEq, Repr

/-- The tagging sequence of `download_video_as_mp3` (main.py lines 185–204)
given the album-cover HTTP response: set title, artist and album from the
metadata; a non-2xx cover status is only logged (`logger.error`, line 194)
— the branch changes nothing else; `tag.images.set` is then called with
the response body regardless; finally the empty lyrics workaround frame is
set (`text='', description='', lang=b'   '`). -/
def applyTags (metadata : TrackMetadata) (coverStatus : Int) (coverBody : Bytes) :
    Mp3Tag :=
  let tag : Mp3Tag := {}
  let tag := { tag with title := some metadata.title }
  let tag := { tag with artist := some metadata.artist }
  let tag := { tag with album := some metadata.album }
  let tag := if ¬ (200 ≤ coverStatus ∧ coverStatus < 300) then tag else tag
  let tag := { tag with image := some ⟨coverBody, FRONT_COVER, "image/jpeg",
    metadata.album ++ " Front Cover"⟩ }
  let tag := { tag with lyrics := some ⟨"", "", "   "⟩ }
  tag

/-- The external collaborators of one `download_video_as_mp3` call:
the hosting service's resolution outcome and download behaviour, the
encoding tool's exit status, the album-cover HTTP fetch (which can raise,
or return a status code and body), and whether `tag.save` raises. -/
structure PipelineEnv where
  resolve : ResolveOutcome
  downloadRaises : Bool
  transcodeExit : Int
  coverFetch : Except Unit (Int × Bytes)
  tagSaveRaises : Bool

/-- An exception escaping `download_video_as_mp3`. -/
inductive PipelineError where
  | ioError
  | notFound (detail : String)
  | downloadFailed
  | transcodeFailed
  | coverFetchFailed
  | tagSaveFailed
deriving DecidableEq, Repr

def liftDownloadError : DownloadError → PipelineError
  | .ioError => .ioError
  | .httpNotFound d => .notFound d
  | .downloadFailed => .downloadFailed

def liftConvertError : ConvertError → PipelineError
  | .ioError => .ioError
  | .transcodeFailed => .transcodeFailed

/-- The `FileResponse` returned on success (main.py line 208): the encoded
file's path, the media type, the tag saved into it, and the
`BackgroundTask(remove_tmp_files)` deferring cleanup to response
completion. -/
structure SuccessResponse where
  path : PyStr
  mediaType : String
  tag : Mp3Tag
  cleanupDeferred : Bool
deriving DecidableEq, Repr

/-- The observable outcome of one `download_video_as_mp3` call: the value
returned or exception raised, and whether each of the two temporary files
still exists on the filesystem when the call returns or the exception
propagates. -/
structure PipelineOutcome where
  result : Except PipelineError SuccessResponse
  mp4Present : Bool
  mp3Present : Bool
deriving Repr

/-- `download_video_as_mp3` (main.py lines 170–213).  Both temporary files
are created up front by `tempfile.NamedTemporaryFile(delete=False)` (so
they exist on disk, and the `isfile` preconditions of the two steps hold).
Every exception raised inside the `try` block — `HTTPException` included —
is caught by `except Exception`, which runs `remove_tmp_files()` (deleting
both files) and re-raises.  On success the response hands cleanup to a
background task and both files still exist. -/
def download_video_as_mp3 (env : PipelineEnv) (ffmpegPath tmpMp4 tmpMp3 : PyStr)
    (videoId : String) (metadata : TrackMetadata) : PipelineOutcome :=
  match download_youtube_video env.resolve env.downloadRaises true videoId with
  | .error e => ⟨.error (liftDownloadError e), false, false⟩
  | .ok () =>
    match convert_mp4_to_mp3 (fun _ => env.transcodeExit) ffmpegPath
        true true tmpMp4 tmpMp3 with
    | .error e => ⟨.error (liftConvertError e), false, false⟩
    | .ok () =>
      match env.coverFetch with
      | .error () => ⟨.error .coverFetchFailed, false, false⟩
      | .ok (coverStatus, coverBody) =>
        let tag := applyTags metadata coverStatus coverBody
        if env.tagSaveRaises then ⟨.error .tagSaveFailed, false, false⟩
        else ⟨.ok ⟨tmpMp3, "audio/mpeg", tag, true⟩, true, true⟩

/-! ### Lemmas about `splitOnSpace` -/

theorem splitOnSpace_no_space (s : PyStr) (h : ' ' ∉ s) : splitOnSpace s = [s] := by
  induction s with
  | nil => rfl
  | cons c rest ih =>
    have hc : c ≠ ' ' := fun he => h (he ▸ List.mem_cons_self c rest)
    have hrest : ' ' ∉ rest := fun hm => h (List.mem_cons_of_mem c hm)
    simp [splitOnSpace, hc, ih hrest]

theorem splitOnSpace_append (xs ys : PyStr) (h : ' ' ∉ xs) :
    splitOnSpace (xs ++ ' ' :: ys) = xs :: splitOnSpace ys := by
  induction xs with
  | nil => simp [splitOnSpace]
  | cons c rest ih =>
    have hc : c ≠ ' ' := fun he => h (he ▸ List.mem_cons_self c rest)
    have hrest : ' ' ∉ rest := fun hm => h (List.mem_cons_of_mem c hm)
    simp [splitOnSpace, hc, ih hrest]

/-- When the three paths contain no space, the f-string split produces the
tool's path followed by exactly `-i <input> -ab 320k -y <output>`. -/
theorem convertCmd_eq (f m4 m3 : PyStr)
    (hf : ' ' ∉ f) (h4 : ' ' ∉ m4) (h3 : ' ' ∉ m3) :
    convertCmd f m4 m3 =
      [f, ['-', 'i'], m4, ['-', 'a', 'b'], ['3', '2', '0', 'k'], ['-', 'y'], m3] := by
  have hshape : f ++ [' ', '-', 'i', ' '] ++ m4 ++
      [' ', '-', 'a', 'b', ' ', '3', '2', '0', 'k', ' ', '-', 'y', ' '] ++ m3 =
      f ++ ' ' :: (['-', 'i'] ++ ' ' :: (m4 ++ ' ' :: (['-', 'a', 'b'] ++ ' ' ::
        (['3', '2', '0', 'k'] ++ ' ' :: (['-', 'y'] ++ ' ' :: m3))))) := by
    simp
  rw [convertCmd, hshape,
    splitOnSpace_append _ _ hf,
    splitOnSpace_append _ _ (by decide),
    splitOnSpace_append _ _ h4,
    splitOnSpace_append _ _ (by decide),
    splitOnSpace_append _ _ (by decide),
    splitOnSpace_append _ _ (by decide),
    splitOnSpace_no_space _ h3]

/-! ## Claims about the pipeline steps (C6, C7) -/

/-- C6: when the hosting collaborator reports that no resource exists for
the given source identifier (`VideoUnavailable`), `download_youtube_video`
fails with the 404 `HTTPException` whose detail carries that identifier —
a constructor distinct from every other failure of the operation. -/
theorem C6_not_found_is_distinct_and_carries_id
    (downloadRaises isFile : Bool) (videoId : String) (h : isFile = true) :
    download_youtube_video .unavailable downloadRaises isFile videoId =
      .error (.httpNotFound ("No video found with ID " ++ videoId)) ∧
    ∀ d : String, DownloadError.httpNotFound d ≠ .ioError ∧
      DownloadError.httpNotFound d ≠ .downloadFailed := by
  subst h
  exact ⟨by simp [download_youtube_video], fun d => ⟨by simp, by simp⟩⟩

/-- Witness for C6 at the spec's end-to-end scenario 2 input,
`source_id = "missing123"`. -/
theorem C6_not_found_is_distinct_and_carries_id_witness :
    download_youtube_video .unavailable false true "missing123" =
      .error (.httpNotFound ("No video found with ID " ++ "missing123")) ∧
    ∀ d : String, DownloadError.httpNotFound d ≠ .ioError ∧
      DownloadError.httpNotFound d ≠ .downloadFailed :=
  C6_not_found_is_distinct_and_carries_id false true "missing123" rfl

/-- C7: with space-free paths, `convert_mp4_to_mp3` invokes the encoding
tool with exactly the arguments `-i <input> -ab 320k -y <output>`; exit
status 0 succeeds, and any non-zero exit status fails with the
transcode-failed exception — the tool is run exactly once, so there is no
retry. -/
theorem C7_transcode_invocation (run : List PyStr → Int) (f m4 m3 : PyStr)
    (hf : ' ' ∉ f) (h4 : ' ' ∉ m4) (h3 : ' ' ∉ m3)
    (hext4 : pyEndsWith ['.', 'm', 'p', '4'] m4 = true)
    (hext3 : pyEndsWith ['.', 'm', 'p', '3'] m3 = true) :
    convert_mp4_to_mp3 run f true true m4 m3 =
      if run [f, ['-', 'i'], m4, ['-', 'a', 'b'], ['3', '2', '0', 'k'],
          ['-', 'y'], m3] ≠ 0
      then .error .transcodeFailed
      else .ok () := by
  unfold convert_mp4_to_mp3
  rw [if_neg (by simp [hext4]), if_neg (by simp [hext3]),
    convertCmd_eq f m4 m3 hf h4 h3]

/-- Witness for C7 at a concrete input: the tool exits 1, so the call
fails with the transcode-failed exception. -/
theorem C7_transcode_invocation_witness :
    convert_mp4_to_mp3 (fun _ => 1) ['f'] true true
      ['a', '.', 'm', 'p', '4'] ['b', '.', 'm', 'p', '3'] =
      .error .transcodeFailed := by
  rw [C7_transcode_invocation (fun _ => 1) ['f'] ['a', '.', 'm', 'p', '4']
    ['b', '.', 'm', 'p', '3'] (by decide) (by decide) (by decide) (by decide)
    (by decide)]
  rfl

/-! ## Claims about the acquisition orchestration (C3, C9, C10) -/

/-- C3: if the download step raises `NotFound`, or the transcode or tagging
step raises any exception (non-zero encoder exit, cover fetch raising, or
`tag.save` raising), then the call raises, both temporary files are removed
from the filesystem before the exception propagates, and no encoded output
file remains. -/
theorem C3_cleanup_on_failure (env : PipelineEnv)
    (ffmpegPath tmpMp4 tmpMp3 : PyStr) (videoId : String)
    (metadata : TrackMetadata)
    (h : env.resolve = .unavailable ∨ env.resolve = .noStream ∨
         env.transcodeExit ≠ 0 ∨ env.coverFetch = .error () ∨
         env.tagSaveRaises = true) :
    ∃ e, download_video_as_mp3 env ffmpegPath tmpMp4 tmpMp3 videoId metadata =
      ⟨.error e, false, false⟩ := by
  rcases hd : download_youtube_video env.resolve env.downloadRaises true videoId
    with e | ⟨⟩
  · exact ⟨liftDownloadError e, by unfold download_video_as_mp3; rw [hd]⟩
  rcases hc : convert_mp4_to_mp3 (fun _ => env.transcodeExit) ffmpegPath
      true true tmpMp4 tmpMp3 with e | ⟨⟩
  · exact ⟨liftConvertError e, by unfold download_video_as_mp3; rw [hd, hc]⟩
  rcases hcf : env.coverFetch with ⟨⟩ | ⟨status, body⟩
  · exact ⟨.coverFetchFailed, by unfold download_video_as_mp3; rw [hd, hc, hcf]⟩
  rcases hts : env.tagSaveRaises with _ | _
  · exfalso
    rcases h with h | h | h | h | h
    · rw [h] at hd
      simp [download_youtube_video] at hd
    · rw [h] at hd
      simp [download_youtube_video] at hd
    · unfold convert_mp4_to_mp3 at hc
      split_ifs at hc with h1 h2
    · rw [h] at hcf
      simp at hcf
    · rw [hts] at h
      simp at h
  · exact ⟨.tagSaveFailed, by
      unfold download_video_as_mp3
      rw [hd, hc, hcf]
      simp [hts]⟩

/-- Witness for C3 at a concrete input: the hosting service reports the
video unavailable; the call raises the 404 and both temp files are gone. -/
theorem C3_cleanup_on_failure_witness :
    ∃ e, download_video_as_mp3
        ⟨.unavailable, false, 0, .ok (200, []), false⟩
        ['f'] ['a', '.', 'm', 'p', '4'] ['b', '.', 'm', 'p', '3']
        "missing123" ⟨"T", "A", "B", "http://x/y.jpg"⟩ =
      ⟨.error e, false, false⟩ :=
  C3_cleanup_on_failure ⟨.unavailable, false, 0, .ok (200, []), false⟩
    ['f'] ['a', '.', 'm', 'p', '4'] ['b', '.', 'm', 'p', '3']
    "missing123" ⟨"T", "A", "B", "http://x/y.jpg"⟩ (Or.inl rfl)

/-- C9: for a successful acquisition (the video resolves, the download
succeeds, the encoding tool exits 0, the cover fetch returns, and the tag
saves), the returned file response carries a tag whose title, artist and
album equal the caller-supplied metadata fields, and whose lyrics frame is
present with empty text. -/
theorem C9_success_embeds_metadata (env : PipelineEnv)
    (ffmpegPath tmpMp4 tmpMp3 : PyStr) (videoId : String)
    (metadata : TrackMetadata) (sid : Int) (status : Int) (body : Bytes)
    (h1 : env.resolve = .stream sid) (h2 : env.downloadRaises = false)
    (h3 : pyEndsWith ['.', 'm', 'p', '4'] tmpMp4 = true)
    (h4 : pyEndsWith ['.', 'm', 'p', '3'] tmpMp3 = true)
    (h5 : env.transcodeExit = 0)
    (h6 : env.coverFetch = .ok (status, body))
    (h7 : env.tagSaveRaises = false) :
    download_video_as_mp3 env ffmpegPath tmpMp4 tmpMp3 videoId metadata =
      ⟨.ok ⟨tmpMp3, "audio/mpeg", applyTags metadata status body, true⟩,
        true, true⟩ ∧
    (applyTags metadata status body).title = some metadata.title ∧
    (applyTags metadata status body).artist = some metadata.artist ∧
    (applyTags metadata status body).album = some metadata.album ∧
    (applyTags metadata status body).lyrics = some ⟨"", "", "   "⟩ := by
  refine ⟨?_, by simp [applyTags], by simp [applyTags], by simp [applyTags],
    by simp [applyTags]⟩
  simp [download_video_as_mp3, download_youtube_video, convert_mp4_to_mp3,
    h1, h2, h3, h4, h5, h6, h7]

/-- Witness for C9 at the spec's end-to-end scenario 3 input:
metadata `{title: "T", artist: "A", album: "B"}`, encoding tool exits 0. -/
theorem C9_success_embeds_metadata_witness :
    download_video_as_mp3 ⟨.stream 0, false, 0, .ok (200, [1]), false⟩
        ['f'] ['a', '.', 'm', 'p', '4'] ['b', '.', 'm', 'p', '3']
        "vid" ⟨"T", "A", "B", "http://x/y.jpg"⟩ =
      ⟨.ok ⟨['b', '.', 'm', 'p', '3'], "audio/mpeg",
          applyTags ⟨"T", "A", "B", "http://x/y.jpg"⟩ 200 [1], true⟩,
        true, true⟩ ∧
    (applyTags ⟨"T", "A", "B", "http://x/y.jpg"⟩ 200 [1]).title = some "T" ∧
    (applyTags ⟨"T", "A", "B", "http://x/y.jpg"⟩ 200 [1]).artist = some "A" ∧
    (applyTags ⟨"T", "A", "B", "http://x/y.jpg"⟩ 200 [1]).album = some "B" ∧
    (applyTags ⟨"T", "A", "B", "http://x/y.jpg"⟩ 200 [1]).lyrics =
      some ⟨"", "", "   "⟩ :=
  C9_success_embeds_metadata ⟨.stream 0, false, 0, .ok (200, [1]), false⟩
    ['f'] ['a', '.', 'm', 'p', '4'] ['b', '.', 'm', 'p', '3']
    "vid" ⟨"T", "A", "B", "http://x/y.jpg"⟩ 0 200 [1]
    rfl rfl (by decide) (by decide) rfl rfl rfl

/-- C10: the tagging step passes the cover response's body to
`tag.images.set` whatever the response's status code: the resulting tag's
front-cover image frame holds the body bytes, and the whole tag is
independent of the status — in particular a non-2xx error body is still
embedded rather than the artwork being omitted. -/
theorem C10_cover_body_embedded_unconditionally (metadata : TrackMetadata)
    (status status' : Int) (body : Bytes) :
    (applyTags metadata status body).image =
      some ⟨body, FRONT_COVER, "image/jpeg", metadata.album ++ " Front Cover"⟩ ∧
    applyTags metadata status body = applyTags metadata status' body := by
  constructor <;> simp [applyTags]

/-! ## Metadata search (`src/utils.py`, `search_track_metadata_options`)

The pydantic models of utils.py lines 51–78, and the handling of the
metadata provider's HTTP response (lines 168–186).  The cache consultation
and token exchange that precede the HTTP request are not needed by the
claims about this function. -/

structure SpotifyAlbumImage where
  url : String
  height : Int
  width : Int
deriving DecidableEq, Repr

structure SpotifyAlbum where
  name : String
  images : List SpotifyAlbumImage
deriving DecidableEq, Repr

structure SpotifyArtist where
  name : String
deriving DecidableEq, Repr

structure SpotifyTrack where
  name : String
  album : SpotifyAlbum
  artists : List SpotifyArtist
deriving DecidableEq, Repr

structure SpotifyTracksResult where
  total : Int
  items : List SpotifyTrack
deriving DecidableEq, Repr

structure SpotifySearchResponse where
  tracks : SpotifyTracksResult
deriving DecidableEq, Repr

/-- The metadata provider's HTTP response as the function observes it: the
status code, and the result of `SpotifySearchResponse.model_validate` on
the body (`none` when validation raises `ValidationError`). -/
structure SpotifyHttpResponse where
  statusCode : Int
  validated : Option SpotifySearchResponse
deriving DecidableEq, Repr

/-- Python `sep.join(xs)`. -/
def strJoin (sep : String) : List String → String
  | [] => ""
  | [x] => x
  | x :: xs => x ++ sep ++ strJoin sep xs

/-- One element of the comprehension at utils.py lines 178–186:
`track.album.images[0]` raises `IndexError` on an empty image list. -/
def trackToMetadata (track : SpotifyTrack) : Except PyError TrackMetadata :=
  match track.album.images with
  | [] => .error .indexError
  | img :: _ =>
    .ok ⟨track.name, strJoin " & " (track.artists.map SpotifyArtist.name),
      track.album.name, img.url⟩

/-- The response-handling tail of `search_track_metadata_options`
(utils.py lines 168–186): a status outside `range(200, 300)` yields `[]`;
a body that fails validation yields `[]`; otherwise the track list is
mapped to `TrackMetadata` values. -/
def search_track_metadata_options (response : SpotifyHttpResponse) :
    Except PyError (List TrackMetadata) :=
  if ¬ (200 ≤ response.statusCode ∧ response.statusCode < 300) then .ok []
  else
    match response.validated with
    | none => .ok []
    | some data => data.tracks.items.mapM trackToMetadata

/-- C8: whenever the metadata provider's response has a non-success HTTP
status or fails shape validation, the search returns the empty result list
instead of raising. -/
theorem C8_bad_response_yields_empty_list (response : SpotifyHttpResponse)
    (h : ¬ (200 ≤ response.statusCode ∧ response.statusCode < 300) ∨
      response.validated = none) :
    search_track_metadata_options response = .ok [] := by
  unfold search_track_metadata_options
  rcases h with h | h
  · rw [if_pos h]
  · by_cases hs : 200 ≤ response.statusCode ∧ response.statusCode < 300
    · rw [if_neg (not_not_intro hs), h]
    · rw [if_pos hs]

/-- Witness for C8 at a concrete input: a 500 response. -/
theorem C8_bad_response_yields_empty_list_witness :
    search_track_metadata_options ⟨500, none⟩ = .ok [] :=
  C8_bad_response_yields_empty_list ⟨500, none⟩ (Or.inl (by decide))

end Itadakimasu
